import Mathlib

/-!
Shallow embedding of `torchao/float8/config.py`: the float8 linear-layer
configuration and recipe-validation subsystem.

Python objects are modelled as Lean values.  The in-place writes that
`Float8LinearConfig.__post_init__` performs with `object.__setattr__` are
modelled by explicit value updates, returning the final value of every
descriptor slot.  When an unset override slot is defaulted to its primary
descriptor, Python aliases the two slots to one object; in the subsequent
dtype-resolution loop the primary of each pair is resolved first and the
override would be resolved to the same default, so the final slot values
under value semantics coincide with Python's aliased semantics for each
(primary, override) pair.
-/

namespace Torchao

/-- `ScalingType` enum from config.py: DYNAMIC | DISABLED. -/
inductive ScalingType where
  | DYNAMIC
  | DISABLED
  deriving DecidableEq, Repr

/-- `ScalingType.short_str`. -/
def ScalingType.short_str : ScalingType → String
  | .DYNAMIC => "dyn"
  | .DISABLED => "dis"

/-- `ScalingGranularity` enum from config.py: TENSORWISE | AXISWISE. -/
inductive ScalingGranularity where
  | TENSORWISE
  | AXISWISE
  deriving DecidableEq, Repr

/-- `ScalingGranularity.short_str`. -/
def ScalingGranularity.short_str : ScalingGranularity → String
  | .TENSORWISE => "ten"
  | .AXISWISE => "axs"

/-- A representative universe of `torch.dtype` values, with the attributes
(`is_floating_point`, `itemsize`) that the config code queries. -/
inductive DType where
  | float8_e4m3fn
  | float8_e5m2
  | float8_e4m3fnuz
  | float8_e5m2fnuz
  | float16
  | bfloat16
  | float32
  | int8
  | int32
  deriving DecidableEq, Repr

/-- `torch.dtype.is_floating_point`. -/
def DType.is_floating_point : DType → Bool
  | .float8_e4m3fn => true
  | .float8_e5m2 => true
  | .float8_e4m3fnuz => true
  | .float8_e5m2fnuz => true
  | .float16 => true
  | .bfloat16 => true
  | .float32 => true
  | .int8 => false
  | .int32 => false

/-- `torch.dtype.itemsize` in bytes. -/
def DType.itemsize : DType → Nat
  | .float8_e4m3fn => 1
  | .float8_e5m2 => 1
  | .float8_e4m3fnuz => 1
  | .float8_e5m2fnuz => 1
  | .float16 => 2
  | .bfloat16 => 2
  | .float32 => 4
  | .int8 => 1
  | .int32 => 4

/-- Module-level `e4m3_dtype` (`Float8TypeConfig` default; the MI300 path
would select the fnuz variant, we model the default platform). -/
def e4m3_dtype : DType := .float8_e4m3fn

/-- Module-level `e5m2_dtype`. -/
def e5m2_dtype : DType := .float8_e5m2

/-- `CastConfig` dataclass: configuration for maybe casting a single tensor
to float8. -/
structure CastConfig where
  scaling_type : ScalingType := .DYNAMIC
  scaling_granularity : ScalingGranularity := .TENSORWISE
  target_dtype : Option DType := none
  deriving DecidableEq, Repr

/-- The two-entry dict lookup in `CastConfig.short_str`:
`{e4m3_dtype: "e4m3", e5m2_dtype: "e5m2"}[self.target_dtype]`.
`none` is not a key, and neither is any other dtype; those lookups raise
`KeyError`, modelled as `Option.none`. -/
def dtypeShortName : Option DType → Option String
  | some d =>
      if d = e4m3_dtype then some "e4m3"
      else if d = e5m2_dtype then some "e5m2"
      else none
  | none => none

/-- `CastConfig.short_str`; `none` models the `KeyError` raised when the
target dtype is not one of the two recognized families (including unset). -/
def CastConfig.short_str (c : CastConfig) : Option String :=
  (dtypeShortName c.target_dtype).map fun dtype =>
    c.scaling_type.short_str ++ "_" ++ c.scaling_granularity.short_str ++ "_" ++ dtype

/-- `CastConfig.__post_init__`: the two asserts run at construction.
`Except.error` models a failed assert. -/
def CastConfig.post_init (c : CastConfig) : Except String Unit :=
  if c.scaling_granularity = ScalingGranularity.AXISWISE ∧
      ¬ c.scaling_type = ScalingType.DYNAMIC then
    Except.error "only dynamic scaling type is supported for axiswise scaling granularity"
  else if c.target_dtype.all (fun d => d.is_floating_point && decide (d.itemsize = 1)) then
    Except.ok ()
  else
    Except.error "must specify a 8-bit floating-point dtype"

/-- `Float8GemmConfig` dataclass. -/
structure Float8GemmConfig where
  use_fast_accum : Bool := false
  deriving DecidableEq, Repr

/-- Constructor arguments of the `Float8LinearConfig` dataclass, with its
field defaults; the three grad-weight-override slots are `Optional` and
default to `None`. -/
structure Float8LinearConfigArgs where
  cast_config_input : CastConfig := {}
  cast_config_input_for_grad_weight : Option CastConfig := none
  cast_config_weight : CastConfig := {}
  cast_config_weight_for_grad_input : Option CastConfig := none
  cast_config_grad_output : CastConfig := {}
  cast_config_grad_output_for_grad_weight : Option CastConfig := none
  gemm_config_output : Float8GemmConfig := { use_fast_accum := true }
  gemm_config_grad_input : Float8GemmConfig := {}
  gemm_config_grad_weight : Float8GemmConfig := {}
  enable_fsdp_float8_all_gather : Bool := false
  pad_inner_dim : Bool := false
  emulate : Bool := false
  force_recompute_fp8_weight_in_bwd : Bool := false
  round_scales_to_power_of_2 : Bool := false
  deriving DecidableEq, Repr

/-- A `Float8LinearConfig` instance after `__post_init__` ran to completion:
override slots populated, every target dtype resolved.  The field values are
the final values of the corresponding Python objects, which `__post_init__`
updates in place via `object.__setattr__`. -/
structure Float8LinearConfig where
  cast_config_input : CastConfig
  cast_config_input_for_grad_weight : CastConfig
  cast_config_weight : CastConfig
  cast_config_weight_for_grad_input : CastConfig
  cast_config_grad_output : CastConfig
  cast_config_grad_output_for_grad_weight : CastConfig
  gemm_config_output : Float8GemmConfig
  gemm_config_grad_input : Float8GemmConfig
  gemm_config_grad_weight : Float8GemmConfig
  enable_fsdp_float8_all_gather : Bool
  pad_inner_dim : Bool
  emulate : Bool
  force_recompute_fp8_weight_in_bwd : Bool
  round_scales_to_power_of_2 : Bool
  deriving DecidableEq, Repr

/-- One iteration of the disabled-pairing loop in
`Float8LinearConfig.__post_init__`.  As in the source, both `is_disabled_1`
and `is_disabled_2` read `cc1.scaling_type`; the second operand `cc2` is
never inspected (config.py line 251), so the assert can never fire. -/
def checkGemmPair (cc1 : CastConfig) (_cc2 : CastConfig) (gemm_name : String) :
    Except String Unit :=
  let is_disabled_1 : Bool := cc1.scaling_type = ScalingType.DISABLED
  let is_disabled_2 : Bool := cc1.scaling_type = ScalingType.DISABLED
  if is_disabled_1 = is_disabled_2 then
    Except.ok ()
  else
    Except.error ("incompatible operand precision for " ++ gemm_name)

/-- The in-place dtype defaulting `__post_init__` performs on one descriptor:
`if cc.target_dtype is None: object.__setattr__(cc, "target_dtype", default)`. -/
def resolveDtype (cc : CastConfig) (default_dtype : DType) : CastConfig :=
  { cc with target_dtype := some (cc.target_dtype.getD default_dtype) }

/-- One iteration of the dtype-resolution loop in `__post_init__`: default
both descriptors of a (primary, grad-weight-override) pair, then assert
their target dtypes agree. -/
def resolvePair (cc1 cc2 : CastConfig) (operand_name : String)
    (default_dtype : DType) : Except String (CastConfig × CastConfig) :=
  let cc1' := resolveDtype cc1 default_dtype
  let cc2' := resolveDtype cc2 default_dtype
  if cc1'.target_dtype = cc2'.target_dtype then
    Except.ok (cc1', cc2')
  else
    Except.error (operand_name ++ " must be cast to the same dtype in both matmuls")

/-- `Float8LinearConfig.__post_init__`, in source order: override
defaulting, the FSDP/granularity check, the disabled-pairing loop, the
dtype-resolution loop.  The deprecated-flag branch only emits a warning and
does not affect the result. -/
def Float8LinearConfig.post_init (a : Float8LinearConfigArgs) :
    Except String Float8LinearConfig :=
  let cc_i := a.cast_config_input
  let cc_w := a.cast_config_weight
  let cc_go := a.cast_config_grad_output
  let cc_i_gw := a.cast_config_input_for_grad_weight.getD cc_i
  let cc_w_gi := a.cast_config_weight_for_grad_input.getD cc_w
  let cc_go_gw := a.cast_config_grad_output_for_grad_weight.getD cc_go
  if cc_w.scaling_granularity ≠ ScalingGranularity.TENSORWISE ∧
      a.enable_fsdp_float8_all_gather = true then
    Except.error "enable_fsdp_float8_all_gather only supports tensorwise scaling granularity"
  else
    match checkGemmPair cc_i cc_w "output" with
    | Except.error e => Except.error e
    | Except.ok _ =>
    match checkGemmPair cc_go cc_w_gi "grad_input" with
    | Except.error e => Except.error e
    | Except.ok _ =>
    match checkGemmPair cc_i_gw cc_go_gw "grad_weight" with
    | Except.error e => Except.error e
    | Except.ok _ =>
    match resolvePair cc_i cc_i_gw "input" e4m3_dtype with
    | Except.error e => Except.error e
    | Except.ok p_i =>
    match resolvePair cc_w cc_w_gi "weight" e4m3_dtype with
    | Except.error e => Except.error e
    | Except.ok p_w =>
    match resolvePair cc_go cc_go_gw "grad_output" e5m2_dtype with
    | Except.error e => Except.error e
    | Except.ok p_go =>
    Except.ok
      { cast_config_input := p_i.1
        cast_config_input_for_grad_weight := p_i.2
        cast_config_weight := p_w.1
        cast_config_weight_for_grad_input := p_w.2
        cast_config_grad_output := p_go.1
        cast_config_grad_output_for_grad_weight := p_go.2
        gemm_config_output := a.gemm_config_output
        gemm_config_grad_input := a.gemm_config_grad_input
        gemm_config_grad_weight := a.gemm_config_grad_weight
        enable_fsdp_float8_all_gather := a.enable_fsdp_float8_all_gather
        pad_inner_dim := a.pad_inner_dim
        emulate := a.emulate
        force_recompute_fp8_weight_in_bwd := a.force_recompute_fp8_weight_in_bwd
        round_scales_to_power_of_2 := a.round_scales_to_power_of_2 }

/-- The disabled-pairing check is vacuous: both locals read `cc1`. -/
theorem checkGemmPair_ok (cc1 cc2 : CastConfig) (gemm_name : String) :
    checkGemmPair cc1 cc2 gemm_name = Except.ok () := by
  simp [checkGemmPair]

/-- The fully resolved configuration `__post_init__` produces when all its
checks pass. -/
def mkResolved (a : Float8LinearConfigArgs) : Float8LinearConfig :=
  let cc_i_gw := a.cast_config_input_for_grad_weight.getD a.cast_config_input
  let cc_w_gi := a.cast_config_weight_for_grad_input.getD a.cast_config_weight
  let cc_go_gw := a.cast_config_grad_output_for_grad_weight.getD a.cast_config_grad_output
  { cast_config_input := resolveDtype a.cast_config_input e4m3_dtype
    cast_config_input_for_grad_weight := resolveDtype cc_i_gw e4m3_dtype
    cast_config_weight := resolveDtype a.cast_config_weight e4m3_dtype
    cast_config_weight_for_grad_input := resolveDtype cc_w_gi e4m3_dtype
    cast_config_grad_output := resolveDtype a.cast_config_grad_output e5m2_dtype
    cast_config_grad_output_for_grad_weight := resolveDtype cc_go_gw e5m2_dtype
    gemm_config_output := a.gemm_config_output
    gemm_config_grad_input := a.gemm_config_grad_input
    gemm_config_grad_weight := a.gemm_config_grad_weight
    enable_fsdp_float8_all_gather := a.enable_fsdp_float8_all_gather
    pad_inner_dim := a.pad_inner_dim
    emulate := a.emulate
    force_recompute_fp8_weight_in_bwd := a.force_recompute_fp8_weight_in_bwd
    round_scales_to_power_of_2 := a.round_scales_to_power_of_2 }

/-- The FSDP/granularity guard, as a proposition. -/
def fsdpOK (a : Float8LinearConfigArgs) : Prop :=
  ¬ (a.cast_config_weight.scaling_granularity ≠ ScalingGranularity.TENSORWISE ∧
      a.enable_fsdp_float8_all_gather = true)

/-- The dtype-agreement condition for one (primary, override) pair. -/
def pairDtypeOK (cc1 cc2 : CastConfig) (default_dtype : DType) : Prop :=
  cc1.target_dtype.getD default_dtype = cc2.target_dtype.getD default_dtype

instance (a : Float8LinearConfigArgs) : Decidable (fsdpOK a) := by
  unfold fsdpOK; infer_instance

instance (cc1 cc2 : CastConfig) (d : DType) : Decidable (pairDtypeOK cc1 cc2 d) := by
  unfold pairDtypeOK; infer_instance

/-- `resolvePair` succeeds exactly when the defaulted target dtypes agree. -/
theorem resolvePair_eq (cc1 cc2 : CastConfig) (operand_name : String) (d : DType) :
    resolvePair cc1 cc2 operand_name d =
      if pairDtypeOK cc1 cc2 d then
        Except.ok (resolveDtype cc1 d, resolveDtype cc2 d)
      else
        Except.error (operand_name ++ " must be cast to the same dtype in both matmuls") := by
  unfold resolvePair pairDtypeOK
  by_cases h : (cc1.target_dtype.getD d = cc2.target_dtype.getD d)
  · simp [resolveDtype, h]
  · simp [resolveDtype, h]

/-- Characterization of a successful `__post_init__` run. -/
theorem post_init_ok_iff (a : Float8LinearConfigArgs) (c : Float8LinearConfig) :
    Float8LinearConfig.post_init a = Except.ok c ↔
      fsdpOK a ∧
      pairDtypeOK a.cast_config_input
        (a.cast_config_input_for_grad_weight.getD a.cast_config_input) e4m3_dtype ∧
      pairDtypeOK a.cast_config_weight
        (a.cast_config_weight_for_grad_input.getD a.cast_config_weight) e4m3_dtype ∧
      pairDtypeOK a.cast_config_grad_output
        (a.cast_config_grad_output_for_grad_weight.getD a.cast_config_grad_output) e5m2_dtype ∧
      c = mkResolved a := by
  by_cases hf : (a.cast_config_weight.scaling_granularity ≠ ScalingGranularity.TENSORWISE ∧ a.enable_fsdp_float8_all_gather = true)
  · simp [Float8LinearConfig.post_init, hf, fsdpOK]
  · by_cases h1 : (pairDtypeOK a.cast_config_input (a.cast_config_input_for_grad_weight.getD a.cast_config_input) e4m3_dtype)
    all_goals by_cases h2 : (pairDtypeOK a.cast_config_weight (a.cast_config_weight_for_grad_input.getD a.cast_config_weight) e4m3_dtype)
    all_goals by_cases h3 : (pairDtypeOK a.cast_config_grad_output (a.cast_config_grad_output_for_grad_weight.getD a.cast_config_grad_output) e5m2_dtype)
    all_goals
      simp only [Float8LinearConfig.post_init, checkGemmPair_ok, resolvePair_eq,
        if_neg hf, h1, h2, h3, if_true, if_false]
    all_goals constructor
    all_goals intro h
    all_goals
      first
        | exact Except.noConfusion h
        | exact ⟨hf, trivial, trivial, trivial, (Except.ok.inj h).symm⟩
        | (obtain ⟨-, -, -, -, rfl⟩ := h; rfl)
        | exact h.2.1.elim
        | exact h.2.2.1.elim
        | exact h.2.2.2.1.elim

theorem resolveDtype_scaling_type (cc : CastConfig) (d : DType) :
    (resolveDtype cc d).scaling_type = cc.scaling_type := rfl

theorem resolveDtype_scaling_granularity (cc : CastConfig) (d : DType) :
    (resolveDtype cc d).scaling_granularity = cc.scaling_granularity := rfl

theorem resolveDtype_target_dtype (cc : CastConfig) (d : DType) :
    (resolveDtype cc d).target_dtype = some (cc.target_dtype.getD d) := rfl

/-- Resolving a descriptor whose target dtype is already set is the
identity, whatever default is supplied. -/
theorem resolveDtype_resolveDtype (cc : CastConfig) (d d' : DType) :
    resolveDtype (resolveDtype cc d) d' = resolveDtype cc d := by
  cases cc; rfl

/-- The constructor-argument record corresponding to an already resolved
configuration: every field fed back verbatim, override slots wrapped in
`some`. -/
def argsOfConfig (c : Float8LinearConfig) : Float8LinearConfigArgs :=
  { cast_config_input := c.cast_config_input
    cast_config_input_for_grad_weight := some c.cast_config_input_for_grad_weight
    cast_config_weight := c.cast_config_weight
    cast_config_weight_for_grad_input := some c.cast_config_weight_for_grad_input
    cast_config_grad_output := c.cast_config_grad_output
    cast_config_grad_output_for_grad_weight := some c.cast_config_grad_output_for_grad_weight
    gemm_config_output := c.gemm_config_output
    gemm_config_grad_input := c.gemm_config_grad_input
    gemm_config_grad_weight := c.gemm_config_grad_weight
    enable_fsdp_float8_all_gather := c.enable_fsdp_float8_all_gather
    pad_inner_dim := c.pad_inner_dim
    emulate := c.emulate
    force_recompute_fp8_weight_in_bwd := c.force_recompute_fp8_weight_in_bwd
    round_scales_to_power_of_2 := c.round_scales_to_power_of_2 }

/-- `Float8LinearRecipeName` enum. -/
inductive Float8LinearRecipeName where
  | TENSORWISE
  | ROWWISE
  | ROWWISE_WITH_GW_HP
  deriving DecidableEq, Repr

/-- The `.value` string of each enum member. -/
def Float8LinearRecipeName.value : Float8LinearRecipeName → String
  | .TENSORWISE => "tensorwise"
  | .ROWWISE => "rowwise"
  | .ROWWISE_WITH_GW_HP => "rowwise_with_gw_hp"

/-- The enum members in declaration order, as iterated by
`[n.value for n in Float8LinearRecipeName]`. -/
def recipeMembers : List Float8LinearRecipeName :=
  [.TENSORWISE, .ROWWISE, .ROWWISE_WITH_GW_HP]

/-- `valid_names = [n.value for n in Float8LinearRecipeName]`. -/
def valid_names : List String := recipeMembers.map Float8LinearRecipeName.value

/-- The enum value-lookup `Float8LinearRecipeName(recipe_name)`, as a total
function: `none` when the string is not a member value (the source only
reaches the lookup after checking membership in `valid_names`, see
`fromString_none_iff`). -/
def Float8LinearRecipeName.fromString (s : String) : Option Float8LinearRecipeName :=
  recipeMembers.find? fun r => r.value = s

/-- The assertion message for an unknown recipe string; it carries the
offending name and the full list of valid names. -/
def unknownRecipeMsg (s : String) (valid : List String) : String :=
  "recipe_name " ++ s ++ " not in valid names " ++ String.intercalate ", " valid

/-- The recipe arguments for `Float8LinearRecipeName.ROWWISE`
(config.py lines 293-310). -/
def rowwiseArgs : Float8LinearConfigArgs :=
  { cast_config_input :=
      { scaling_granularity := .AXISWISE, target_dtype := some e4m3_dtype }
    cast_config_weight :=
      { scaling_granularity := .AXISWISE, target_dtype := some e4m3_dtype }
    cast_config_grad_output :=
      { scaling_granularity := .AXISWISE, target_dtype := some e4m3_dtype }
    round_scales_to_power_of_2 := true }

/-- The recipe arguments for `Float8LinearRecipeName.ROWWISE_WITH_GW_HP`
(config.py lines 312-336). -/
def rowwiseWithGwHpArgs : Float8LinearConfigArgs :=
  { cast_config_input := { scaling_granularity := .AXISWISE }
    cast_config_weight := { scaling_granularity := .AXISWISE }
    cast_config_grad_output :=
      { scaling_granularity := .AXISWISE, target_dtype := some e4m3_dtype }
    cast_config_weight_for_grad_input :=
      some { scaling_granularity := .TENSORWISE }
    cast_config_input_for_grad_weight :=
      some { scaling_type := .DISABLED }
    cast_config_grad_output_for_grad_weight :=
      some { scaling_type := .DISABLED, target_dtype := some e4m3_dtype } }

/-- Dispatch on a (normalized) recipe enum member; each branch constructs a
`Float8LinearConfig`, which runs `__post_init__`. -/
def configFromRecipe : Float8LinearRecipeName → Except String Float8LinearConfig
  | .TENSORWISE => Float8LinearConfig.post_init {}
  | .ROWWISE => Float8LinearConfig.post_init rowwiseArgs
  | .ROWWISE_WITH_GW_HP => Float8LinearConfig.post_init rowwiseWithGwHpArgs

/-- `Float8LinearConfig.from_recipe_name`: accepts an enum member or a
string; an unrecognized string fails with the message listing the valid
names. -/
def from_recipe_name :
    Sum Float8LinearRecipeName String → Except String Float8LinearConfig
  | Sum.inl r => configFromRecipe r
  | Sum.inr s =>
    match Float8LinearRecipeName.fromString s with
    | some r => configFromRecipe r
    | none => Except.error (unknownRecipeMsg s valid_names)

/-- The value lookup fails exactly on strings outside `valid_names`, so
`from_recipe_name` matches the source's membership check. -/
theorem fromString_none_iff (s : String) :
    Float8LinearRecipeName.fromString s = none ↔ s ∉ valid_names := by
  unfold Float8LinearRecipeName.fromString valid_names recipeMembers
  simp [List.find?, Float8LinearRecipeName.value]
  by_cases h1 : ("tensorwise" = s)
  all_goals by_cases h2 : ("rowwise" = s)
  all_goals by_cases h3 : ("rowwise_with_gw_hp" = s)
  all_goals simp_all [eq_comm]

/-- Arguments with `input` scaling disabled and `weight` scaling active:
the two operands of the `output` matmul disagree on being disabled. -/
def mixedDisabledArgs : Float8LinearConfigArgs :=
  { cast_config_input := { scaling_type := .DISABLED } }

/-- Arguments with `enable_fsdp_float8_all_gather` set while a descriptor
other than the weight primary (here `input`) is axiswise. -/
def fsdpOtherAxiswiseArgs : Float8LinearConfigArgs :=
  { cast_config_input := { scaling_granularity := .AXISWISE }
    enable_fsdp_float8_all_gather := true }

/-- Arguments with `enable_fsdp_float8_all_gather` set while the weight
primary descriptor is axiswise. -/
def fsdpWeightAxiswiseArgs : Float8LinearConfigArgs :=
  { cast_config_weight := { scaling_granularity := .AXISWISE }
    enable_fsdp_float8_all_gather := true }

/-- The fully resolved descriptor shared by all six slots of the `rowwise`
recipe configuration. -/
def rowwiseCast : CastConfig :=
  { scaling_type := .DYNAMIC
    scaling_granularity := .AXISWISE
    target_dtype := some e4m3_dtype }

/-- The configuration the `rowwise` recipe produces. -/
def rowwiseResolved : Float8LinearConfig :=
  { cast_config_input := rowwiseCast
    cast_config_input_for_grad_weight := rowwiseCast
    cast_config_weight := rowwiseCast
    cast_config_weight_for_grad_input := rowwiseCast
    cast_config_grad_output := rowwiseCast
    cast_config_grad_output_for_grad_weight := rowwiseCast
    gemm_config_output := { use_fast_accum := true }
    gemm_config_grad_input := {}
    gemm_config_grad_weight := {}
    enable_fsdp_float8_all_gather := false
    pad_inner_dim := false
    emulate := false
    force_recompute_fp8_weight_in_bwd := false
    round_scales_to_power_of_2 := true }

/-- The configuration the `rowwise_with_gw_hp` recipe produces. -/
def gwHpResolved : Float8LinearConfig :=
  { cast_config_input :=
      { scaling_granularity := .AXISWISE, target_dtype := some e4m3_dtype }
    cast_config_input_for_grad_weight :=
      { scaling_type := .DISABLED, target_dtype := some e4m3_dtype }
    cast_config_weight :=
      { scaling_granularity := .AXISWISE, target_dtype := some e4m3_dtype }
    cast_config_weight_for_grad_input :=
      { target_dtype := some e4m3_dtype }
    cast_config_grad_output :=
      { scaling_granularity := .AXISWISE, target_dtype := some e4m3_dtype }
    cast_config_grad_output_for_grad_weight :=
      { scaling_type := .DISABLED, target_dtype := some e4m3_dtype }
    gemm_config_output := { use_fast_accum := true }
    gemm_config_grad_input := {}
    gemm_config_grad_weight := {}
    enable_fsdp_float8_all_gather := false
    pad_inner_dim := false
    emulate := false
    force_recompute_fp8_weight_in_bwd := false
    round_scales_to_power_of_2 := false }

/-- C1 (code defect, config.py line 251): with `input` scaling Disabled and
`weight` scaling Dynamic, the two operands of the `output` matmul disagree
on being disabled, yet construction succeeds: the disabled-pairing loop
computes `is_disabled_2` from `cc1`, so the assert can never fire. -/
theorem claim_C1_mixed_disabled_accepted :
    mixedDisabledArgs.cast_config_input.scaling_type = ScalingType.DISABLED ∧
    mixedDisabledArgs.cast_config_weight.scaling_type = ScalingType.DYNAMIC ∧
    Float8LinearConfig.post_init mixedDisabledArgs =
      Except.ok (mkResolved mixedDisabledArgs) :=
  ⟨rfl, rfl, rfl⟩

/-- C4: `CastConfig` construction succeeds iff "axiswise implies dynamic"
holds and any specified target dtype is an 8-bit float; in particular it
fails for axiswise with a non-dynamic policy and for a non-8-bit-float
target, while tensorwise accepts every policy and an unset target is
accepted. -/
theorem claim_C4_cast_descriptor_validation (c : CastConfig) :
    CastConfig.post_init c = Except.ok () ↔
      ((c.scaling_granularity = ScalingGranularity.AXISWISE →
          c.scaling_type = ScalingType.DYNAMIC) ∧
        ∀ d, c.target_dtype = some d →
          d.is_floating_point = true ∧ d.itemsize = 1) := by
  rcases c with ⟨st, sg, td⟩
  unfold CastConfig.post_init
  rcases td with _ | d
  · cases st <;> cases sg <;> simp [Option.all]
  · cases st <;> cases sg <;> cases d <;>
      simp [Option.all, DType.is_floating_point, DType.itemsize]

theorem claim_C4_witness :
    CastConfig.post_init {} = Except.ok () :=
  (claim_C4_cast_descriptor_validation {}).mpr
    ⟨(fun h => nomatch h), (fun _ h => nomatch h)⟩

/-- C5: whenever the weight primary descriptor is not tensorwise and FSDP
all-gather is enabled, construction fails with the FSDP error; the check
reads only the weight primary descriptor, so a configuration with FSDP
enabled and an axiswise `input` descriptor constructs successfully. -/
theorem claim_C5_fsdp_requires_tensorwise_weight :
    (∀ a : Float8LinearConfigArgs,
        a.cast_config_weight.scaling_granularity ≠ ScalingGranularity.TENSORWISE →
        a.enable_fsdp_float8_all_gather = true →
        Float8LinearConfig.post_init a =
          Except.error "enable_fsdp_float8_all_gather only supports tensorwise scaling granularity") ∧
      (fsdpOtherAxiswiseArgs.enable_fsdp_float8_all_gather = true ∧
        fsdpOtherAxiswiseArgs.cast_config_input.scaling_granularity = ScalingGranularity.AXISWISE ∧
        Float8LinearConfig.post_init fsdpOtherAxiswiseArgs =
          Except.ok (mkResolved fsdpOtherAxiswiseArgs)) := by
  constructor
  · intro a h1 h2
    simp [Float8LinearConfig.post_init, h1, h2]
  · exact ⟨rfl, rfl, rfl⟩

theorem claim_C5_witness :
    Float8LinearConfig.post_init fsdpWeightAxiswiseArgs =
      Except.error "enable_fsdp_float8_all_gather only supports tensorwise scaling granularity" :=
  claim_C5_fsdp_requires_tensorwise_weight.1 fsdpWeightAxiswiseArgs (by decide) rfl

/-- C7: the `rowwise` recipe succeeds; all three primary descriptors are
axiswise, dynamic, with the preferred e4m3 target, and power-of-two scale
rounding is on. -/
theorem claim_C7_rowwise_recipe :
    from_recipe_name (Sum.inr "rowwise") = Except.ok rowwiseResolved ∧
    rowwiseResolved.cast_config_input = rowwiseCast ∧
    rowwiseResolved.cast_config_weight = rowwiseCast ∧
    rowwiseResolved.cast_config_grad_output = rowwiseCast ∧
    rowwiseCast.scaling_granularity = ScalingGranularity.AXISWISE ∧
    rowwiseCast.scaling_type = ScalingType.DYNAMIC ∧
    rowwiseCast.target_dtype = some e4m3_dtype ∧
    rowwiseResolved.round_scales_to_power_of_2 = true :=
  ⟨rfl, rfl, rfl, rfl, rfl, rfl, rfl, rfl⟩

/-- C8: the `rowwise_with_gw_hp` recipe succeeds; both grad-weight operands
have scaling disabled, the weight-for-grad-input override is tensorwise,
and the weight primary descriptor is axiswise. -/
theorem claim_C8_rowwise_gw_hp_recipe :
    from_recipe_name (Sum.inr "rowwise_with_gw_hp") = Except.ok gwHpResolved ∧
    gwHpResolved.cast_config_input_for_grad_weight.scaling_type = ScalingType.DISABLED ∧
    gwHpResolved.cast_config_grad_output_for_grad_weight.scaling_type = ScalingType.DISABLED ∧
    gwHpResolved.cast_config_weight_for_grad_input.scaling_granularity = ScalingGranularity.TENSORWISE ∧
    gwHpResolved.cast_config_weight.scaling_granularity = ScalingGranularity.AXISWISE :=
  ⟨rfl, rfl, rfl, rfl, rfl⟩

/-- C9: recipe lookup accepts an enum member or its canonical string; every
valid string resolves to the same configuration as the enum member, and an
unknown string fails with a message carrying exactly the valid names
(`valid_names`), which are precisely those strings the lookup accepts. -/
theorem claim_C9_recipe_lookup :
    from_recipe_name (Sum.inr "not_a_real_recipe") =
        Except.error (unknownRecipeMsg "not_a_real_recipe" valid_names) ∧
    valid_names = ["tensorwise", "rowwise", "rowwise_with_gw_hp"] ∧
    (∀ r : Float8LinearRecipeName,
        from_recipe_name (Sum.inr r.value) = from_recipe_name (Sum.inl r)) ∧
    (∀ s : String, Float8LinearRecipeName.fromString s = none ↔ s ∉ valid_names) ∧
    (∀ s : String, s ∉ valid_names →
        from_recipe_name (Sum.inr s) =
          Except.error (unknownRecipeMsg s valid_names)) := by
  refine ⟨rfl, rfl, ?_, fromString_none_iff, ?_⟩
  · intro r
    cases r <;> rfl
  · intro s hs
    simp [from_recipe_name, (fromString_none_iff s).mpr hs]

theorem claim_C9_witness :
    Float8LinearRecipeName.fromString "not_a_real_recipe" = none :=
  (claim_C9_recipe_lookup.2.2.2.1 "not_a_real_recipe").mpr (by decide)

/-- C10: `short_str` fails (the two-entry dtype-name lookup raises
`KeyError`) on every descriptor whose target dtype is unset; in particular
the all-defaults descriptor cannot be labeled. -/
theorem claim_C10_short_str_unset_dtype :
    (∀ c : CastConfig, c.target_dtype = none → c.short_str = none) ∧
      CastConfig.short_str {} = none := by
  constructor
  · intro c h
    simp [CastConfig.short_str, dtypeShortName, h]
  · rfl

theorem claim_C10_witness :
    CastConfig.short_str { scaling_type := ScalingType.DISABLED } = none :=
  claim_C10_short_str_unset_dtype.1 _ rfl

/-- C2 (refuted as stated): the override defaulting is not the only
post-construction write.  On the all-defaults construction the validation
pass also writes the resolved target dtype into the `input` primary
descriptor (config.py line 263 mutates that caller-reachable object via
`object.__setattr__`), so its final value differs from the supplied one. -/
theorem claim_C2_counterexample :
    ({} : Float8LinearConfigArgs).cast_config_input.target_dtype = none ∧
    Float8LinearConfig.post_init {} =
      Except.ok (mkResolved ({} : Float8LinearConfigArgs)) ∧
    (mkResolved ({} : Float8LinearConfigArgs)).cast_config_input.target_dtype =
      some e4m3_dtype ∧
    (mkResolved ({} : Float8LinearConfigArgs)).cast_config_input ≠
      ({} : Float8LinearConfigArgs).cast_config_input :=
  ⟨rfl, rfl, rfl, by decide⟩

/-- C2 (amended): construction is pure apart from the deprecated-flag log
emission, the step-1 override defaulting, and the in-place target-dtype
resolution: every successful run returns exactly `mkResolved`, whose
descriptor writes touch only `target_dtype` (policy and granularity are
untouched) and whose gemm configs and layer-wide flags pass through
unchanged. -/
theorem claim_C2_amended_writes :
    (∀ a c, Float8LinearConfig.post_init a = Except.ok c → c = mkResolved a) ∧
    (∀ (cc : CastConfig) (d : DType),
        (resolveDtype cc d).scaling_type = cc.scaling_type ∧
        (resolveDtype cc d).scaling_granularity = cc.scaling_granularity ∧
        (resolveDtype cc d).target_dtype = some (cc.target_dtype.getD d)) ∧
    (∀ a : Float8LinearConfigArgs,
        (mkResolved a).gemm_config_output = a.gemm_config_output ∧
        (mkResolved a).gemm_config_grad_input = a.gemm_config_grad_input ∧
        (mkResolved a).gemm_config_grad_weight = a.gemm_config_grad_weight ∧
        (mkResolved a).enable_fsdp_float8_all_gather = a.enable_fsdp_float8_all_gather ∧
        (mkResolved a).pad_inner_dim = a.pad_inner_dim ∧
        (mkResolved a).emulate = a.emulate ∧
        (mkResolved a).force_recompute_fp8_weight_in_bwd = a.force_recompute_fp8_weight_in_bwd ∧
        (mkResolved a).round_scales_to_power_of_2 = a.round_scales_to_power_of_2) := by
  refine ⟨?_, ?_, ?_⟩
  · intro a c h
    exact ((post_init_ok_iff a c).mp h).2.2.2.2
  · intro cc d
    exact ⟨rfl, rfl, rfl⟩
  · intro a
    exact ⟨rfl, rfl, rfl, rfl, rfl, rfl, rfl, rfl⟩

theorem claim_C2_witness :
    rowwiseResolved = mkResolved rowwiseArgs :=
  claim_C2_amended_writes.1 rowwiseArgs rowwiseResolved rfl

/-- Arguments whose `input` primary and grad-weight-override descriptors
carry different explicit target dtypes. -/
def inputDtypeMismatchArgs : Float8LinearConfigArgs :=
  { cast_config_input := { target_dtype := some e4m3_dtype }
    cast_config_input_for_grad_weight := some { target_dtype := some e5m2_dtype } }

/-- C3: on every successful construction each primary descriptor's target
dtype is its supplied dtype, defaulted when unset to e4m3 for input and
weight and e5m2 for grad_output, and each grad-weight-override descriptor
resolves to the same dtype as its primary; a pair with different explicit
dtypes fails construction. -/
theorem claim_C3_dtype_resolution :
    (∀ a c, Float8LinearConfig.post_init a = Except.ok c →
      (c.cast_config_input.target_dtype =
          some (a.cast_config_input.target_dtype.getD e4m3_dtype) ∧
        c.cast_config_input_for_grad_weight.target_dtype =
          c.cast_config_input.target_dtype) ∧
      (c.cast_config_weight.target_dtype =
          some (a.cast_config_weight.target_dtype.getD e4m3_dtype) ∧
        c.cast_config_weight_for_grad_input.target_dtype =
          c.cast_config_weight.target_dtype) ∧
      (c.cast_config_grad_output.target_dtype =
          some (a.cast_config_grad_output.target_dtype.getD e5m2_dtype) ∧
        c.cast_config_grad_output_for_grad_weight.target_dtype =
          c.cast_config_grad_output.target_dtype)) ∧
    (∀ a (t1 : DType) o (t2 : DType),
        a.cast_config_input.target_dtype = some t1 →
        a.cast_config_input_for_grad_weight = some o →
        o.target_dtype = some t2 → t1 ≠ t2 →
        ∀ c, Float8LinearConfig.post_init a ≠ Except.ok c) ∧
    (∀ a (t1 : DType) o (t2 : DType),
        a.cast_config_weight.target_dtype = some t1 →
        a.cast_config_weight_for_grad_input = some o →
        o.target_dtype = some t2 → t1 ≠ t2 →
        ∀ c, Float8LinearConfig.post_init a ≠ Except.ok c) ∧
    (∀ a (t1 : DType) o (t2 : DType),
        a.cast_config_grad_output.target_dtype = some t1 →
        a.cast_config_grad_output_for_grad_weight = some o →
        o.target_dtype = some t2 → t1 ≠ t2 →
        ∀ c, Float8LinearConfig.post_init a ≠ Except.ok c) := by
  refine ⟨?_, ?_, ?_, ?_⟩
  · intro a c h
    obtain ⟨-, h1, h2, h3, rfl⟩ := (post_init_ok_iff a c).mp h
    exact ⟨⟨rfl, congrArg some h1.symm⟩, ⟨rfl, congrArg some h2.symm⟩,
      ⟨rfl, congrArg some h3.symm⟩⟩
  · intro a t1 o t2 ht1 ho ht2 hne c h
    obtain ⟨-, h1, -, -, -⟩ := (post_init_ok_iff a c).mp h
    unfold pairDtypeOK at h1
    rw [ht1, ho] at h1
    simp only [Option.getD_some] at h1
    rw [ht2] at h1
    exact hne (by simpa using h1)
  · intro a t1 o t2 ht1 ho ht2 hne c h
    obtain ⟨-, -, h2, -, -⟩ := (post_init_ok_iff a c).mp h
    unfold pairDtypeOK at h2
    rw [ht1, ho] at h2
    simp only [Option.getD_some] at h2
    rw [ht2] at h2
    exact hne (by simpa using h2)
  · intro a t1 o t2 ht1 ho ht2 hne c h
    obtain ⟨-, -, -, h3, -⟩ := (post_init_ok_iff a c).mp h
    unfold pairDtypeOK at h3
    rw [ht1, ho] at h3
    simp only [Option.getD_some] at h3
    rw [ht2] at h3
    exact hne (by simpa using h3)

theorem claim_C3_witness :
    rowwiseResolved.cast_config_grad_output.target_dtype = some e4m3_dtype ∧
    Float8LinearConfig.post_init inputDtypeMismatchArgs ≠
      Except.ok (mkResolved inputDtypeMismatchArgs) :=
  ⟨(claim_C3_dtype_resolution.1 rowwiseArgs rowwiseResolved rfl).2.2.1,
    claim_C3_dtype_resolution.2.1 inputDtypeMismatchArgs e4m3_dtype
      { target_dtype := some e5m2_dtype } e5m2_dtype rfl rfl rfl (by decide)
      (mkResolved inputDtypeMismatchArgs)⟩

/-- C6: the validation-and-defaulting pass is idempotent: feeding a
successfully validated configuration's resolved field values back as
constructor arguments succeeds and reproduces the identical configuration. -/
theorem claim_C6_idempotent :
    ∀ a c, Float8LinearConfig.post_init a = Except.ok c →
      Float8LinearConfig.post_init (argsOfConfig c) = Except.ok c := by
  intro a c h
  rw [post_init_ok_iff] at h ⊢
  obtain ⟨hf, h1, h2, h3, rfl⟩ := h
  refine ⟨?_, ?_, ?_, ?_, ?_⟩
  · simpa [argsOfConfig, mkResolved, resolveDtype, fsdpOK] using hf
  · simpa [argsOfConfig, mkResolved, resolveDtype, pairDtypeOK] using h1
  · simpa [argsOfConfig, mkResolved, resolveDtype, pairDtypeOK] using h2
  · simpa [argsOfConfig, mkResolved, resolveDtype, pairDtypeOK] using h3
  · simp [argsOfConfig, mkResolved, resolveDtype_resolveDtype]

theorem claim_C6_witness :
    Float8LinearConfig.post_init (argsOfConfig rowwiseResolved) =
      Except.ok rowwiseResolved :=
  claim_C6_idempotent rowwiseArgs rowwiseResolved rfl

end Torchao
